import Mathlib

/-!
Verification of the single-prompt CLI pipeline (prompt_cmd.rs): prompt
assembly, the streaming-event renderer, assistant-text extraction and the
orchestration around the login-restriction gate. The Rust code is shallowly
embedded: the two terminal sinks are modelled as ordered lists of flushed
chunks, the asynchronous event stream as a finite list of pulls, each pull
either an event or a transport error.
-/

namespace PromptCmd

/-- Content unit of a message, mirroring `codex_protocol::models::ContentItem`
as matched in prompt_cmd.rs (text kinds and an image kind). -/
inductive ContentItem where
  | InputText (text : String)
  | InputImage (imageUrl : String)
  | OutputText (text : String)
deriving Repr, DecidableEq

/-- Structured response item. Only the `Message` variant is inspected by this
file; every other variant of the protocol type is collapsed into `Other`. -/
inductive ResponseItem where
  | Message (id : Option String) (role : String) (content : List ContentItem)
  | Other
deriving Repr, DecidableEq

/-- Token usage counters carried by a completion event. -/
structure TokenUsage where
  total_tokens : Nat
  input_tokens : Nat
  cached_input_tokens : Nat
  output_tokens : Nat
  reasoning_output_tokens : Nat
deriving Repr, DecidableEq

/-- Streaming event, mirroring the `ResponseEvent` cases matched in
`consume_stream`. The rate-limit snapshot is kept opaque as its debug
rendering. -/
inductive ResponseEvent where
  | Created
  | OutputTextDelta (delta : String)
  | OutputItemAdded (item : ResponseItem)
  | OutputItemDone (item : ResponseItem)
  | ReasoningSummaryDelta (text : String)
  | ReasoningContentDelta (text : String)
  | ReasoningSummaryPartAdded
  | RateLimits (snapshot : String)
  | Completed (response_id : String) (token_usage : Option TokenUsage)
deriving Repr, DecidableEq

/-- `assistant_text`: extract the concatenated text of an assistant message,
folding over the content units exactly as the Rust loop pushes onto `text`;
`None` when the item is not an assistant message or the concatenation is
empty. -/
def assistant_text (item : ResponseItem) : Option String :=
  match item with
  | .Message _ role content =>
    if role = "assistant" then
      let text := content.foldl
        (fun acc chunk =>
          match chunk with
          | .InputText value => acc ++ value
          | .OutputText value => acc ++ value
          | .InputImage _ => acc)
        ""
      if text.isEmpty then none else some text
    else none
  | .Other => none

/-- One line of the `Token usage:` report printed on the secondary sink. -/
def print_token_usage (usage : TokenUsage) : String :=
  "Token usage: total=" ++ toString usage.total_tokens ++
    " input=" ++ toString usage.input_tokens ++
    " cached_input=" ++ toString usage.cached_input_tokens ++
    " output=" ++ toString usage.output_tokens ++
    " reasoning_output=" ++ toString usage.reasoning_output_tokens

/-- Render state of `consume_stream`: the two sinks as ordered lists of
flushed chunks, plus the two mutable locals of the Rust function. -/
structure RenderState where
  stdout : List String
  stderr : List String
  printed_response : Bool
  reasoning_summary_line : String
deriving Repr, DecidableEq

/-- The state `consume_stream` starts from. -/
def initRenderState : RenderState :=
  { stdout := [], stderr := [], printed_response := false,
    reasoning_summary_line := "" }

/-- The body of the `while let` loop of `consume_stream`: how one
successfully pulled event transforms the render state. -/
def stepEvent (st : RenderState) : ResponseEvent → RenderState
  | .Created => st
  | .OutputTextDelta delta =>
      { st with stdout := st.stdout ++ [delta], printed_response := true }
  | .OutputItemAdded item | .OutputItemDone item =>
      match assistant_text item with
      | some text =>
          if !st.printed_response then
            { st with stdout := st.stdout ++ [text], printed_response := true }
          else st
      | none => st
  | .ReasoningSummaryDelta text =>
      let line := st.reasoning_summary_line ++ text
      { st with reasoning_summary_line := line,
                stderr := st.stderr ++ ["\r(reasoning summary) " ++ line] }
  | .ReasoningContentDelta text =>
      { st with stderr := st.stderr ++ ["(reasoning detail) " ++ text ++ "\n"] }
  | .ReasoningSummaryPartAdded =>
      if !st.reasoning_summary_line.isEmpty then
        { st with stderr := st.stderr ++ ["\n"], reasoning_summary_line := "" }
      else st
  | .RateLimits snapshot =>
      { st with stderr := st.stderr ++ ["Rate limits: " ++ snapshot ++ "\n"] }
  | .Completed _ token_usage =>
      let st1 :=
        if !st.reasoning_summary_line.isEmpty then
          { st with stderr := st.stderr ++ ["\n"], reasoning_summary_line := "" }
        else st
      let st2 :=
        if st1.printed_response then
          { st1 with stdout := st1.stdout ++ ["\n"], printed_response := false }
        else st1
      match token_usage with
      | some usage =>
          { st2 with stderr := st2.stderr ++ [print_token_usage usage ++ "\n"] }
      | none => st2

/-- The code after the loop of `consume_stream`: close a still-open primary
line and a still-open reasoning-summary line. -/
def finalizeRender (st : RenderState) : RenderState :=
  let st1 :=
    if st.printed_response then { st with stdout := st.stdout ++ ["\n"] }
    else st
  if !st1.reasoning_summary_line.isEmpty then
    { st1 with stderr := st1.stderr ++ ["\n"] }
  else st1

/-- `consume_stream` over a finite list of pulls. A pull yielding an error
aborts immediately (the Rust `event?`), skipping the finalization; graceful
exhaustion runs the finalization and returns success. -/
def consume_stream (st : RenderState) :
    List (Except String ResponseEvent) → RenderState × Except String Unit
  | [] => (finalizeRender st, .ok ())
  | .error e :: _ => (st, .error e)
  | .ok ev :: rest => consume_stream (stepEvent st ev) rest

/-- Errors of `read_prompt` (the two `anyhow::bail!` sites). -/
inductive PromptError where
  | NoPromptProvided
  | EmptyStdinPrompt
deriving Repr, DecidableEq

deriving instance DecidableEq for Except

/-- Outcome of `read_prompt`: the returned result, whether standard input was
read, and the diagnostic chunks written to the secondary sink. -/
structure ReadPromptOutcome where
  result : Except PromptError String
  readStdin : Bool
  stderrChunks : List String
deriving Repr, DecidableEq

/-- The stdin branch of `read_prompt` (prompt absent or exactly the `-`
sentinel): `force_stdin` records whether the sentinel was given explicitly;
`stdinIsTerminal` models `std::io::stdin().is_terminal()` and `stdinContent`
the bytes a full read of standard input would collect. -/
def readFromStdin (force_stdin stdinIsTerminal : Bool) (stdinContent : String) :
    ReadPromptOutcome :=
  if stdinIsTerminal && !force_stdin then
    { result := .error .NoPromptProvided, readStdin := false, stderrChunks := [] }
  else
    let diag := if !force_stdin then ["Reading prompt from stdin...\n"] else []
    if stdinContent.trim.isEmpty then
      { result := .error .EmptyStdinPrompt, readStdin := true, stderrChunks := diag }
    else
      { result := .ok stdinContent, readStdin := true, stderrChunks := diag }

/-- `read_prompt`: a present literal prompt other than `-` is returned
verbatim; otherwise the prompt is read from standard input. -/
def read_prompt (prompt : Option String) (stdinIsTerminal : Bool)
    (stdinContent : String) : ReadPromptOutcome :=
  match prompt with
  | some p =>
      if p ≠ "-" then
        { result := .ok p, readStdin := false, stderrChunks := [] }
      else readFromStdin true stdinIsTerminal stdinContent
  | none => readFromStdin false stdinIsTerminal stdinContent

/-- The default developer instructions of the command. -/
def DEFAULT_SYSTEM_PROMPT : String :=
  "You are a helpful assistant. Respond directly to the user request without running tools or shell commands."

/-- `build_prompt_inputs`: the two-entry request payload. -/
def build_prompt_inputs (system_prompt prompt_text : String) : List ResponseItem :=
  [ResponseItem.Message none "developer" [ContentItem.InputText system_prompt],
   ResponseItem.Message none "user" [ContentItem.InputText prompt_text]]

/-- One reasoning-effort option of a model preset. -/
structure ReasoningEffortOption where
  effort : String
  description : String
deriving Repr, DecidableEq

/-- A model preset as rendered by `print_models` (the catalog itself is an
external collaborator; presets arrive as input here). -/
structure ModelPreset where
  model : String
  is_default : Bool
  description : String
  default_reasoning_effort : String
  supported_reasoning_efforts : List ReasoningEffortOption
deriving Repr, DecidableEq

/-- `print_models`: the lines written to the primary sink for a preset list. -/
def print_models (presets : List ModelPreset) : List String :=
  if presets.isEmpty then ["No models are currently available.\n"]
  else
    "Available models:\n" ::
      (presets.map (fun preset =>
        let default_marker := if preset.is_default then " (default)" else ""
        ["  " ++ preset.model ++ default_marker ++ " - " ++
            preset.description ++ "\n",
         "    Default reasoning effort: " ++
            preset.default_reasoning_effort ++ "\n"] ++
        (if preset.supported_reasoning_efforts.isEmpty then []
         else "    Supported reasoning efforts:\n" ::
           preset.supported_reasoning_efforts.map (fun option =>
             "      - " ++ option.effort ++ ": " ++ option.description ++ "\n")))).flatten

/-- Error returned by `run_prompt_command` to the process boundary. -/
inductive CmdError where
  | promptError (e : PromptError)
  | transportError (e : String)
deriving Repr, DecidableEq

/-- How `run_prompt_command` ends: an immediate `std::process::exit`, or a
`Result` handed back to the caller for ordinary formatting. -/
inductive ProcOutcome where
  | exited (code : Nat)
  | returned (r : Except CmdError Unit)
deriving Repr, DecidableEq

/-- Observable result of one invocation of `run_prompt_command`. -/
structure CommandResult where
  outcome : ProcOutcome
  stdoutChunks : List String
  stderrChunks : List String
  sentRequest : Option (List ResponseItem)
deriving Repr, DecidableEq

/-- `run_prompt_command`: resolve the prompt (unless listing models), print
the preset catalog in list-models mode, otherwise enforce the
login-restriction gate (printing the failure and exiting with code 1 when it
fails) and then send the assembled payload and drain the stream.
Configuration loading and the authentication snapshot are external
collaborators and are abstracted away; the login check arrives as its
result. -/
def run_prompt_command (list_models : Bool) (promptArg systemArg : Option String)
    (stdinIsTerminal : Bool) (stdinContent : String)
    (presets : List ModelPreset) (loginCheck : Except String Unit)
    (events : List (Except String ResponseEvent)) : CommandResult :=
  if list_models then
    { outcome := .returned (.ok ()), stdoutChunks := print_models presets,
      stderrChunks := [], sentRequest := none }
  else
    let ro := read_prompt promptArg stdinIsTerminal stdinContent
    match ro.result with
    | .error e =>
        { outcome := .returned (.error (.promptError e)), stdoutChunks := [],
          stderrChunks := ro.stderrChunks, sentRequest := none }
    | .ok prompt_text =>
        match loginCheck with
        | .error err =>
            { outcome := .exited 1, stdoutChunks := [],
              stderrChunks := ro.stderrChunks ++ [err ++ "\n"],
              sentRequest := none }
        | .ok _ =>
            let system_prompt := systemArg.getD DEFAULT_SYSTEM_PROMPT
            let payload := build_prompt_inputs system_prompt prompt_text
            let consumed := consume_stream initRenderState events
            { outcome := .returned
                (match consumed.2 with
                 | .ok _ => .ok ()
                 | .error e => .error (.transportError e)),
              stdoutChunks := consumed.1.stdout,
              stderrChunks := ro.stderrChunks ++ consumed.1.stderr,
              sentRequest := some payload }

/-- Modelled from the spec: the process boundary (the top-level main wrapper,
which is not under src/) maps an error returned from `run_prompt_command` to
a non-zero exit code distinct from the hard-gate code 1 that the
login-restriction path uses via `std::process::exit(1)`. -/
def processErrorExitCode : Nat := 2

/-- Modelled from the spec: exit code of the whole invocation — 0 on graceful
completion, the distinguished code of an immediate exit, and
`processErrorExitCode` for an error returned to the process boundary. -/
def processExitCode (r : CommandResult) : Nat :=
  match r.outcome with
  | .exited code => code
  | .returned (.ok _) => 0
  | .returned (.error _) => processErrorExitCode

/-! ### Helper lemmas -/

/-- Draining a list of pulls that are all successful events folds the step
function over the list and then runs the finalization. -/
theorem consume_stream_map_ok (events : List ResponseEvent) (st : RenderState) :
    consume_stream st (events.map Except.ok) =
      (finalizeRender (events.foldl stepEvent st), .ok ()) := by
  induction events generalizing st with
  | nil => rfl
  | cons e rest ih => simpa [consume_stream, List.foldl_cons] using ih (stepEvent st e)

/-- Specification form of the content fold of `assistant_text`: concatenate
the text-bearing units in order, ignoring image units. -/
def concatTextUnits : List ContentItem → String
  | [] => ""
  | .InputText t :: rest => t ++ concatTextUnits rest
  | .OutputText t :: rest => t ++ concatTextUnits rest
  | .InputImage _ :: rest => concatTextUnits rest

/-- The accumulator fold used by `assistant_text` computes
`concatTextUnits`. -/
theorem foldl_eq_concatTextUnits (content : List ContentItem) (acc : String) :
    content.foldl
      (fun acc chunk =>
        match chunk with
        | .InputText value => acc ++ value
        | .OutputText value => acc ++ value
        | .InputImage _ => acc)
      acc = acc ++ concatTextUnits content := by
  induction content generalizing acc with
  | nil => simp [concatTextUnits]
  | cons c rest ih =>
      cases c <;> simp [concatTextUnits, ih, String.append_assoc]

/-- `assistant_text` on an assistant message is exactly the nonempty
concatenation of its text units. -/
theorem assistant_text_assistant (id : Option String) (content : List ContentItem) :
    assistant_text (.Message id "assistant" content) =
      if concatTextUnits content = "" then none else some (concatTextUnits content) := by
  simp [assistant_text, foldl_eq_concatTextUnits, String.isEmpty_iff]

/-- One event step preserves the closedness invariant of the primary sink:
whenever `printed_response` is false, the primary sink is empty or its last
flushed chunk is a bare newline. -/
theorem stepEvent_stdout_closed (st : RenderState) (ev : ResponseEvent)
    (h : st.printed_response = false → st.stdout = [] ∨ st.stdout.getLast? = some "\n") :
    (stepEvent st ev).printed_response = false →
      (stepEvent st ev).stdout = [] ∨ (stepEvent st ev).stdout.getLast? = some "\n" := by
  cases ev with
  | Created => exact h
  | OutputTextDelta delta => intro hfalse; simp [stepEvent] at hfalse
  | OutputItemAdded item =>
      simp only [stepEvent]
      cases assistant_text item with
      | none => exact h
      | some text =>
          by_cases hp : st.printed_response
          · simp [stepEvent, hp]
          · intro hfalse; simp [hp] at hfalse
  | OutputItemDone item =>
      simp only [stepEvent]
      cases assistant_text item with
      | none => exact h
      | some text =>
          by_cases hp : st.printed_response
          · simp [stepEvent, hp]
          · intro hfalse; simp [hp] at hfalse
  | ReasoningSummaryDelta text => simpa [stepEvent] using h
  | ReasoningContentDelta text => simpa [stepEvent] using h
  | ReasoningSummaryPartAdded =>
      by_cases hb : st.reasoning_summary_line.isEmpty <;> simpa [stepEvent, hb] using h
  | RateLimits snapshot => simpa [stepEvent] using h
  | Completed response_id token_usage =>
      simp only [stepEvent]
      by_cases hb : st.reasoning_summary_line.isEmpty <;>
        by_cases hp : st.printed_response <;>
          cases token_usage <;>
            simp_all [List.getLast?_concat]

/-- The closedness invariant of the primary sink holds after folding any
event list. -/
theorem runEvents_stdout_closed (events : List ResponseEvent) (st : RenderState)
    (h : st.printed_response = false → st.stdout = [] ∨ st.stdout.getLast? = some "\n") :
    (events.foldl stepEvent st).printed_response = false →
      (events.foldl stepEvent st).stdout = [] ∨
      (events.foldl stepEvent st).stdout.getLast? = some "\n" := by
  induction events generalizing st with
  | nil => exact h
  | cons e rest ih => exact ih (stepEvent st e) (stepEvent_stdout_closed st e h)

/-! ### Claim theorems -/

/-- Claim C1: on the pull sequence [stream-opened, delta "Hi", delta " there",
completed without usage], `consume_stream` succeeds, the primary sink gets
exactly the flushed chunks "Hi", " there", "\n" (each delta flushed as it
arrives), joining to the bytes "Hi there\n", and the secondary sink gets no
chunk at all. -/
theorem consume_stream_delta_sequence :
    consume_stream initRenderState
        [.ok .Created, .ok (.OutputTextDelta "Hi"), .ok (.OutputTextDelta " there"),
         .ok (.Completed "resp" none)] =
      ({ stdout := ["Hi", " there", "\n"], stderr := [], printed_response := false,
         reasoning_summary_line := "" }, .ok ()) ∧
    String.join (consume_stream initRenderState
        [.ok .Created, .ok (.OutputTextDelta "Hi"), .ok (.OutputTextDelta " there"),
         .ok (.Completed "resp" none)]).1.stdout = "Hi there\n" :=
  ⟨rfl, rfl⟩

/-- Claim C3: after the reasoning-summary deltas "Step " and "1" and a part
boundary, the secondary sink holds a carriage-return-prefixed re-render of
the whole accumulated buffer after each delta — the last one reading
"Step 1" — followed by the terminating newline, and the buffer is cleared;
the primary sink is untouched. -/
theorem reasoning_summary_live_line :
    consume_stream initRenderState
        [.ok (.ReasoningSummaryDelta "Step "), .ok (.ReasoningSummaryDelta "1"),
         .ok .ReasoningSummaryPartAdded] =
      ({ stdout := [],
         stderr := ["\r(reasoning summary) Step ", "\r(reasoning summary) Step 1", "\n"],
         printed_response := false, reasoning_summary_line := "" }, .ok ()) :=
  rfl

/-- Claim C5: for every system-instruction string and prompt text, the
assembled payload is exactly two messages in order — a developer-role
message carrying the system instructions, then a user-role message carrying
the prompt — each with a single text content unit. -/
theorem build_prompt_inputs_two_messages (system_prompt prompt_text : String) :
    (build_prompt_inputs system_prompt prompt_text).length = 2 ∧
    build_prompt_inputs system_prompt prompt_text =
      [ResponseItem.Message none "developer" [ContentItem.InputText system_prompt],
       ResponseItem.Message none "user" [ContentItem.InputText prompt_text]] :=
  ⟨rfl, rfl⟩

/-- Claim C7: assistant-text extraction yields the in-order concatenation of
text units on assistant messages ("Hello world" on the two-chunk example),
yields nothing on any message of another role, yields nothing on an
assistant message whose only unit is an image, and nothing on a
non-message item; in general on assistant messages it is the concatenation
of text-bearing units ignoring image units, empty meaning no text. -/
theorem assistant_text_extraction :
    assistant_text (.Message none "assistant"
        [.OutputText "Hello", .OutputText " world"]) = some "Hello world" ∧
    (∀ id role content, role ≠ "assistant" →
      assistant_text (.Message id role content) = none) ∧
    (∀ id url, assistant_text (.Message id "assistant" [.InputImage url]) = none) ∧
    assistant_text .Other = none ∧
    (∀ id content, assistant_text (.Message id "assistant" content) =
      if concatTextUnits content = "" then none
      else some (concatTextUnits content)) := by
  refine ⟨rfl, ?_, ?_, rfl, fun id content => assistant_text_assistant id content⟩
  · intro id role content hrole
    simp [assistant_text, hrole]
  · intro id url
    simp [assistant_text_assistant, concatTextUnits]

/-- Witness for C7: the role-sensitivity clause at a concrete non-assistant
message. -/
theorem assistant_text_extraction_witness :
    assistant_text (.Message none "user" [.OutputText "Hello"]) = none :=
  assistant_text_extraction.2.1 none "user" [.OutputText "Hello"] (by decide)

/-- Claim C8: an error surfaced while pulling the next event aborts the loop
at exactly that point: no later pull is processed (the remainder of the
sequence does not influence the result), the error is returned unchanged,
and the sinks hold exactly the chunks flushed by the events before the
error, with no finalization applied. -/
theorem transport_error_aborts_loop (pre : List ResponseEvent) (e : String)
    (rest : List (Except String ResponseEvent)) (st : RenderState) :
    consume_stream st (pre.map Except.ok ++ Except.error e :: rest) =
      (pre.foldl stepEvent st, Except.error e) := by
  induction pre generalizing st with
  | nil => rfl
  | cons ev pres ih => simpa [consume_stream, List.foldl_cons] using ih (stepEvent st ev)

/-- Claim C10: a present literal prompt argument other than the sentinel
"-" — including the empty string and whitespace-only strings — is returned
verbatim, standard input is not read, and no diagnostic is emitted. -/
theorem read_prompt_literal_verbatim (p : String) (h : p ≠ "-")
    (stdinIsTerminal : Bool) (stdinContent : String) :
    read_prompt (some p) stdinIsTerminal stdinContent =
      { result := .ok p, readStdin := false, stderrChunks := [] } := by
  simp [read_prompt, h]

/-- Witness for C10: the whitespace-only prompt "  " on an interactive
terminal with empty piped input. -/
theorem read_prompt_literal_verbatim_witness :
    read_prompt (some "  ") true "" =
      { result := .ok "  ", readStdin := false, stderrChunks := [] } :=
  read_prompt_literal_verbatim "  " (by decide) true ""

/-- Claim C2: an item event carrying an assistant message with extracted text
prints that text on the primary sink exactly when no primary-channel content
has been printed in the current epoch (so it never duplicates text already
streamed via deltas and prints at most once), and on
[item-done("Full reply"), completed] the primary sink receives "Full reply"
then the closing newline, exactly once. -/
theorem item_event_fallback :
    (∀ (st : RenderState) (item : ResponseItem) (text : String),
      assistant_text item = some text →
      (st.printed_response = true →
        stepEvent st (.OutputItemAdded item) = st ∧
        stepEvent st (.OutputItemDone item) = st) ∧
      (st.printed_response = false →
        stepEvent st (.OutputItemAdded item) =
          { st with stdout := st.stdout ++ [text], printed_response := true } ∧
        stepEvent st (.OutputItemDone item) =
          { st with stdout := st.stdout ++ [text], printed_response := true })) ∧
    consume_stream initRenderState
        [.ok (.OutputItemDone (.Message none "assistant" [.OutputText "Full reply"])),
         .ok (.Completed "resp" none)] =
      ({ stdout := ["Full reply", "\n"], stderr := [], printed_response := false,
         reasoning_summary_line := "" }, .ok ()) := by
  refine ⟨?_, rfl⟩
  intro st item text h
  constructor
  · intro hp
    constructor <;> simp [stepEvent, h, hp]
  · intro hp
    constructor <;> simp [stepEvent, h, hp]

/-- Witness for C2: with primary content already printed, a second done-event
carrying the same text changes nothing. -/
theorem item_event_fallback_witness :
    stepEvent
        { stdout := ["Hi"], stderr := [], printed_response := true,
          reasoning_summary_line := "" }
        (.OutputItemDone (.Message none "assistant" [.OutputText "Hi"])) =
      { stdout := ["Hi"], stderr := [], printed_response := true,
        reasoning_summary_line := "" } :=
  ((item_event_fallback.1
      { stdout := ["Hi"], stderr := [], printed_response := true,
        reasoning_summary_line := "" }
      (.Message none "assistant" [.OutputText "Hi"]) "Hi" (by decide)).1 rfl).2

/-- The primary sink after finalization: a trailing newline chunk is appended
exactly when primary content is still marked printed. -/
theorem finalizeRender_stdout (st : RenderState) :
    (finalizeRender st).stdout =
      if st.printed_response then st.stdout ++ ["\n"] else st.stdout := by
  by_cases hp : st.printed_response <;>
    by_cases hb : st.reasoning_summary_line.isEmpty <;>
      simp [finalizeRender, hp, hb]

/-- If the reasoning-summary line is still open, finalization ends the
secondary sink with a bare newline chunk. -/
theorem finalizeRender_stderr_open (st : RenderState)
    (h : st.reasoning_summary_line ≠ "") :
    (finalizeRender st).stderr.getLast? = some "\n" := by
  have hb : st.reasoning_summary_line.isEmpty = false := by
    cases he : st.reasoning_summary_line.isEmpty
    · rfl
    · exact absurd ((String.isEmpty_iff _).mp he) h
  by_cases hp : st.printed_response <;>
    simp [finalizeRender, hp, hb, List.getLast?_concat]

/-- Claim C4, amended to graceful exhaustion: when every pull succeeds,
`consume_stream` returns success, the primary sink ends empty or with a
newline chunk, and if the reasoning-summary line was still open at
exhaustion the secondary sink ends with a newline chunk — no dangling
unterminated line remains. (On a mid-stream pull error the finalization is
skipped, see the counterexample.) -/
theorem no_dangling_line_graceful (events : List ResponseEvent) :
    (consume_stream initRenderState (events.map Except.ok)).2 = .ok () ∧
    ((consume_stream initRenderState (events.map Except.ok)).1.stdout = [] ∨
      (consume_stream initRenderState (events.map Except.ok)).1.stdout.getLast? =
        some "\n") ∧
    ((events.foldl stepEvent initRenderState).reasoning_summary_line ≠ "" →
      (consume_stream initRenderState (events.map Except.ok)).1.stderr.getLast? =
        some "\n") := by
  rw [consume_stream_map_ok]
  refine ⟨rfl, ?_, fun hopen => finalizeRender_stderr_open _ hopen⟩
  have hinv := runEvents_stdout_closed events initRenderState (fun _ => Or.inl rfl)
  rw [finalizeRender_stdout]
  by_cases hp : (events.foldl stepEvent initRenderState).printed_response
  · right
    simp [hp, List.getLast?_concat]
  · have hfalse : (events.foldl stepEvent initRenderState).printed_response = false := by
      simpa using hp
    rcases hinv hfalse with h1 | h1 <;> simp [hp, h1]

/-- Witness for C4: a lone reasoning-summary delta leaves the line open at
exhaustion, and the secondary sink indeed ends with the terminating
newline. -/
theorem no_dangling_line_graceful_witness :
    (consume_stream initRenderState
        ([ResponseEvent.ReasoningSummaryDelta "x"].map Except.ok)).1.stderr.getLast? =
      some "\n" :=
  (no_dangling_line_graceful [.ReasoningSummaryDelta "x"]).2.2 (by decide)

/-- Counterexample to C4 as stated: when the stream ends with a pull error
rather than graceful exhaustion, the finalization is skipped — after a
delta "Hi" and an error, the primary sink holds only the chunk "Hi", with
primary content still marked printed and no trailing newline, a dangling
unterminated line. -/
theorem dangling_line_on_transport_error :
    consume_stream initRenderState [.ok (.OutputTextDelta "Hi"), .error "boom"] =
      ({ stdout := ["Hi"], stderr := [], printed_response := true,
         reasoning_summary_line := "" }, .error "boom") ∧
    (consume_stream initRenderState
        [.ok (.OutputTextDelta "Hi"), .error "boom"]).1.stdout.getLast? ≠ some "\n" :=
  ⟨rfl, by decide⟩

/-- Claim C6, amended: `NoPromptProvided` is returned exactly when the prompt
argument is absent and standard input is an interactive terminal;
`EmptyStdinPrompt` is returned exactly when the stdin path is actually taken
(prompt exactly "-", or absent with non-interactive stdin) and the collected
text trims to empty. -/
theorem read_prompt_error_characterization (prompt : Option String)
    (stdinIsTerminal : Bool) (stdinContent : String) :
    ((read_prompt prompt stdinIsTerminal stdinContent).result =
        .error .NoPromptProvided ↔ prompt = none ∧ stdinIsTerminal = true) ∧
    ((read_prompt prompt stdinIsTerminal stdinContent).result =
        .error .EmptyStdinPrompt ↔
      (prompt = some "-" ∨ (prompt = none ∧ stdinIsTerminal = false)) ∧
        stdinContent.trim = "") := by
  cases prompt with
  | none =>
      cases stdinIsTerminal <;>
        by_cases htrim : stdinContent.trim = "" <;>
          simp [read_prompt, readFromStdin, String.isEmpty_iff, htrim]
  | some p =>
      by_cases hdash : p = "-"
      · subst hdash
        cases stdinIsTerminal <;>
          by_cases htrim : stdinContent.trim = "" <;>
            simp [read_prompt, readFromStdin, String.isEmpty_iff, htrim]
      · simp [read_prompt, hdash]

/-- Counterexample to C6 as stated: with a literal prompt "hi" on an
interactive terminal, stdin is an interactive terminal and the "-" sentinel
was not given, yet `read_prompt` succeeds instead of failing with
`NoPromptProvided`. -/
theorem no_prompt_error_not_raised_for_literal :
    (read_prompt (some "hi") true "").result = .ok "hi" ∧
    (read_prompt (some "hi") true "").result ≠ .error .NoPromptProvided :=
  ⟨rfl, by decide⟩

/-- Claim C9: in send-prompt mode with a successfully resolved prompt, a
failed login-restriction check prints the failure message to the secondary
sink and terminates the process immediately with the distinguished code 1 —
non-zero and distinct from the spec-modelled exit code used for errors
returned to the process boundary — bypassing the returned-error path, and
no request payload is ever sent. -/
theorem login_restriction_hard_gate (promptArg systemArg : Option String)
    (stdinIsTerminal : Bool) (stdinContent : String) (presets : List ModelPreset)
    (msg : String) (events : List (Except String ResponseEvent)) (p : String)
    (h : (read_prompt promptArg stdinIsTerminal stdinContent).result = .ok p) :
    run_prompt_command false promptArg systemArg stdinIsTerminal stdinContent
        presets (.error msg) events =
      { outcome := .exited 1, stdoutChunks := [],
        stderrChunks :=
          (read_prompt promptArg stdinIsTerminal stdinContent).stderrChunks ++
            [msg ++ "\n"],
        sentRequest := none } ∧
    processExitCode (run_prompt_command false promptArg systemArg stdinIsTerminal
        stdinContent presets (.error msg) events) = 1 ∧
    (1 : Nat) ≠ 0 ∧ (1 : Nat) ≠ processErrorExitCode ∧
    (run_prompt_command false promptArg systemArg stdinIsTerminal stdinContent
        presets (.error msg) events).stderrChunks.getLast? = some (msg ++ "\n") ∧
    (run_prompt_command false promptArg systemArg stdinIsTerminal stdinContent
        presets (.error msg) events).sentRequest = none := by
  have hrun : run_prompt_command false promptArg systemArg stdinIsTerminal
      stdinContent presets (.error msg) events =
      { outcome := .exited 1, stdoutChunks := [],
        stderrChunks :=
          (read_prompt promptArg stdinIsTerminal stdinContent).stderrChunks ++
            [msg ++ "\n"],
        sentRequest := none } := by
    simp [run_prompt_command, h]
  refine ⟨hrun, ?_, by decide, by decide, ?_, ?_⟩ <;>
    simp [hrun, processExitCode, List.getLast?_concat]

/-- Witness for C9: a concrete invocation with prompt "hi" and a failing
login check exits with code 1, prints the message, and sends nothing. -/
theorem login_restriction_hard_gate_witness :
    run_prompt_command false (some "hi") none false "" [] (.error "restricted") [] =
      { outcome := .exited 1, stdoutChunks := [],
        stderrChunks := ["restricted\n"], sentRequest := none } := by
  simpa [read_prompt] using
    (login_restriction_hard_gate (some "hi") none false "" [] "restricted" [] "hi"
      rfl).1

end PromptCmd
